import Mathlib

/-!
Shallow embedding of the OpenSeadragon `Drawer` (src/src/drawer.js): the
tile-compositing facade with its canvas/DOM dual backend, the rotation
transform pair `_offsetForRotation` / `_restoreRotationChanges`, and the
lifecycle operations `reset`, `update`, `clear`, `destroy`.

JavaScript numbers are modelled as exact rationals (`ℚ`).  The 2D drawing
context is modelled as a save-stack depth plus a log of drawing operations;
the rotation call `context.rotate(Math.PI / 180 * degrees)` is recorded by
its degree argument (`CtxOp.rotateDeg d` stands for a rotation by
`π / 180 * d` radians).  Mutation of `this` and of the tile is made explicit
by returning updated copies.
-/

/-- A 2D point, as used for `tile.position` and `tile.size`. -/
structure Pt where
  x : ℚ
  y : ℚ
deriving DecidableEq

/-- Load state of a tile record (spec section 3: pending / loaded / failed /
unloaded). -/
inductive LoadState
  | pending
  | loaded
  | failed
  | unloaded
deriving DecidableEq

/-- One tile record: pyramid identity, screen placement, and load state.
The decoded image handle is opaque and modelled as a natural number. -/
structure Tile where
  level : ℕ
  x : ℕ
  y : ℕ
  position : Pt
  size : Pt
  loadState : LoadState
  loadedImage : Option ℕ
deriving DecidableEq

/-- One operation applied to the 2D drawing context.  `rotateDeg d` records
the call `context.rotate(Math.PI / 180 * d)`, i.e. a rotation by
`π / 180 * d` radians, keyed by its degree argument `d`. -/
inductive CtxOp
  | save
  | translate (x y : ℚ)
  | rotateDeg (d : ℚ)
  | restore
  | clearRect (x y w h : ℚ)
  | drawImage (position size : Pt)
deriving DecidableEq

/-- The 2D drawing context: whether the drawing surface is available
(`ok`), the net depth of the `save`/`restore` state stack, and the log of
operations issued so far (newest last). -/
structure Ctx where
  ok : Bool
  depth : ℕ
  ops : List CtxOp
deriving DecidableEq

/-- The backing canvas element: its pixel dimensions. -/
structure Canvas where
  width : ℚ
  height : ℚ
deriving DecidableEq

/-- The viewport collaborator, at its interface boundary: the rotation in
degrees and the container size reported by `getContainerSize()`. -/
structure Viewport where
  degrees : ℚ
  containerSize : Pt
deriving DecidableEq

/-- Observable side effects other than context operations: the
tile-drawing hook being invoked, the `tile-drawing` event being raised to
the viewer, a DOM node insertion (`drawHTML`), a canvas resize, and the
`canvas.innerHTML = ""` write in `clear()`. -/
inductive Effect
  | hookInvoked
  | tileDrawingRaised
  | domInsert
  | canvasResize (w h : ℚ)
  | innerHTMLCleared
deriving DecidableEq

/-- The Drawer's state: backend selection, canvas and context, viewport
reference, the four cache structures, and the bookkeeping flags, as set up
in the `$.Drawer` constructor. -/
structure Drawer where
  useCanvas : Bool
  hasViewer : Bool
  canvas : Canvas
  context : Ctx
  viewport : Viewport
  tilesMatrix : List (ℕ × ℕ × ℕ × Tile)
  tilesLoaded : List Tile
  coverage : List (ℕ × ℕ × ℕ × Bool)
  lastDrawn : List Tile
  lastResetTime : ℕ
  midUpdate : Bool
  updateAgain : Bool
deriving DecidableEq

/-- Embeds `Drawer.prototype.numTilesLoaded`: `return this.tilesLoaded.length`. -/
def Drawer.numTilesLoaded (d : Drawer) : ℕ :=
  d.tilesLoaded.length

/-- Modelled from the spec: `Tile.unload` (tile.js, not under src/).  Per
the spec's TileRecord invariant, transitioning to `unloaded` releases the
owned decoded image (nulls out `loadedImage`). -/
def Tile.unload (t : Tile) : Tile :=
  { t with loadState := LoadState.unloaded, loadedImage := none }

/-- Modelled from the spec: `clearTiles` (private helper of drawer.js, not
under src/), the spec's `clearAll()`: unloads every loaded record and
empties `tilesMatrix`, `coverage`, `tilesLoaded`, `lastDrawn`. -/
def clearTiles (d : Drawer) : Drawer :=
  { d with tilesMatrix := [], coverage := [], tilesLoaded := [],
           lastDrawn := [] }

/-- Embeds `Drawer.prototype.reset`: `clearTiles(this); this.lastResetTime = $.now();
this.updateAgain = true`.  The external clock `$.now()` is a parameter. -/
def Drawer.reset (d : Drawer) (now : ℕ) : Drawer :=
  { clearTiles d with lastResetTime := now, updateAgain := true }

/-- Embeds `Drawer.prototype.update`: `this.midUpdate = true; updateViewport(this);
this.midUpdate = false`.  The frame body `updateViewport` (not under src/)
is a parameter: it transforms the drawer state and either returns normally
(`none`) or throws (`some e`), in which case the exception propagates and
the line `this.midUpdate = false` never executes. -/
def Drawer.update (d : Drawer) (body : Drawer → Drawer × Option ℕ) :
    Drawer × Option ℕ :=
  let d1 := { d with midUpdate := true }
  match body d1 with
  | (d2, none) => ({ d2 with midUpdate := false }, none)
  | (d2, some e) => (d2, some e)

/-- Embeds `Drawer.prototype.destroy`: unloads each tile in `tilesLoaded` in place
(the list itself is not emptied) and shrinks the canvas to 1x1. -/
def Drawer.destroy (d : Drawer) : Drawer :=
  { d with tilesLoaded := d.tilesLoaded.map Tile.unload,
           canvas := { width := 1, height := 1 } }

/-- Embeds `Drawer.prototype.clear`: always writes `canvas.innerHTML = ""`; when
using a canvas, reassigns the canvas dimensions only when they differ from
`viewport.getContainerSize()`, then clears the full container rectangle. -/
def Drawer.clear (d : Drawer) : Drawer × List Effect :=
  if d.useCanvas then
    let vs := d.viewport.containerSize
    let resized := d.canvas.width ≠ vs.x ∨ d.canvas.height ≠ vs.y
    let canvas2 := if resized then { width := vs.x, height := vs.y } else d.canvas
    let effs := if resized then [Effect.canvasResize vs.x vs.y] else []
    let ctx2 := { d.context with
                  ops := d.context.ops ++ [CtxOp.clearRect 0 0 vs.x vs.y] }
    ({ d with canvas := canvas2, context := ctx2 },
     Effect.innerHTMLCleared :: effs)
  else
    (d, [Effect.innerHTMLCleared])

/-- Embeds `Drawer.prototype._offsetForRotation`: saves the context state,
translates the origin to the canvas center, rotates by
`Math.PI / 180 * degrees` radians, and rewrites `tile.position` to
`position - center`. -/
def Drawer.offsetForRotation (d : Drawer) (t : Tile) (degrees : ℚ) :
    Drawer × Tile :=
  let cx := d.canvas.width / 2
  let cy := d.canvas.height / 2
  let px := t.position.x - cx
  let py := t.position.y - cy
  let ctx2 := { d.context with
                depth := d.context.depth + 1,
                ops := d.context.ops ++
                  [CtxOp.save, CtxOp.translate cx cy, CtxOp.rotateDeg degrees] }
  ({ d with context := ctx2 }, { t with position := ⟨px, py⟩ })

/-- Embeds `Drawer.prototype._restoreRotationChanges`: rewrites `tile.position`
back to `position + center` and restores the context state. -/
def Drawer.restoreRotationChanges (d : Drawer) (t : Tile) : Drawer × Tile :=
  let cx := d.canvas.width / 2
  let cy := d.canvas.height / 2
  let px := t.position.x + cx
  let py := t.position.y + cy
  let ctx2 := { d.context with
                depth := d.context.depth - 1,
                ops := d.context.ops ++ [CtxOp.restore] }
  ({ d with context := ctx2 }, { t with position := ⟨px, py⟩ })

/-- Embeds `this._drawingHandler`: raises the `tile-drawing` event when
`self.viewer` is set. -/
def Drawer.drawingHandler (d : Drawer) : List Effect :=
  if d.hasViewer then [Effect.tileDrawingRaised] else []

/-- Modelled from the spec: `Tile.drawCanvas` (tile.js, not under src/).
Per the spec's Surface-variant contract it invokes the `onBeforeDraw` hook
(here: the drawing handler's effects, preceded by the `hookInvoked`
marker), then composites the tile's image at `position`/`size`; an
unavailable drawing surface is a backend draw failure that throws
(`none`) without drawing or invoking the hook.  It mutates neither the
tile nor the context save-stack. -/
def Tile.drawCanvas (t : Tile) (ctx : Ctx) (handlerEffects : List Effect) :
    Option (Ctx × List Effect) :=
  if ctx.ok then
    some ({ ctx with ops := ctx.ops ++ [CtxOp.drawImage t.position t.size] },
          Effect.hookInvoked :: handlerEffects)
  else
    none

/-- Modelled from the spec: `Tile.drawHTML` (tile.js, not under src/).
Per the spec's Node-variant contract it inserts/positions a DOM node for
the tile and never invokes the `onBeforeDraw` hook; it does not mutate the
tile. -/
def Tile.drawHTML (_t : Tile) : List Effect :=
  [Effect.domInsert]

/-- Result of one `drawTile` call: the updated drawer and tile, whether an
exception propagated out (`threw`), and the observable effects. -/
structure DrawResult where
  drawer : Drawer
  tile : Tile
  threw : Bool
  effects : List Effect
deriving DecidableEq

/-- Embeds `Drawer.prototype.drawTile`: on the canvas backend, wraps the draw in
the rotation pair when `viewport.degrees !== 0`; a throw from
`tile.drawCanvas` propagates immediately (there is no try/finally), so the
restore step is skipped in that case.  On the DOM backend it calls
`tile.drawHTML`. -/
def Drawer.drawTile (d : Drawer) (t : Tile) : DrawResult :=
  if d.useCanvas then
    if d.viewport.degrees ≠ 0 then
      let s1 := d.offsetForRotation t d.viewport.degrees
      match s1.2.drawCanvas s1.1.context s1.1.drawingHandler with
      | some (ctx2, effs) =>
          let s2 := Drawer.restoreRotationChanges
                      { s1.1 with context := ctx2 } s1.2
          ⟨s2.1, s2.2, false, effs⟩
      | none => ⟨s1.1, s1.2, true, []⟩
    else
      match t.drawCanvas d.context d.drawingHandler with
      | some (ctx2, effs) => ⟨{ d with context := ctx2 }, t, false, effs⟩
      | none => ⟨d, t, true, []⟩
  else
    ⟨d, t, false, t.drawHTML⟩

/-- A concrete loaded tile at position (10, 10), used to instantiate the
theorems below. -/
def tileEx : Tile :=
  { level := 2, x := 1, y := 1, position := ⟨10, 10⟩, size := ⟨64, 64⟩,
    loadState := LoadState.loaded, loadedImage := some 7 }

/-- A concrete canvas-backend drawer: 100x100 canvas (center (50, 50)),
viewport rotated by 45 degrees, drawing surface available, one loaded
tile in every cache structure. -/
def drawerEx : Drawer :=
  { useCanvas := true, hasViewer := true,
    canvas := { width := 100, height := 100 },
    context := { ok := true, depth := 0, ops := [] },
    viewport := { degrees := 45, containerSize := ⟨100, 100⟩ },
    tilesMatrix := [(2, 1, 1, tileEx)], tilesLoaded := [tileEx],
    coverage := [(2, 1, 1, true)], lastDrawn := [tileEx],
    lastResetTime := 0, midUpdate := false, updateAgain := true }

/-- The same drawer with an unavailable drawing surface, so that the draw
call between the rotation enter/exit steps throws. -/
def drawerBadSurface : Drawer :=
  { drawerEx with context := { ok := false, depth := 0, ops := [] } }

/-- The same drawer on the DOM-node backend. -/
def drawerNode : Drawer :=
  { drawerEx with useCanvas := false }

/-- The same drawer with an unrotated viewport. -/
def drawerNoRot : Drawer :=
  { drawerEx with viewport := { degrees := 0, containerSize := ⟨100, 100⟩ } }

/-- A concrete frame body for `update`: returns normally after setting
`lastResetTime` to 99 (an observable marker that the body ran). -/
def innerBodyEx : Drawer → Drawer × Option ℕ :=
  fun d => ({ d with lastResetTime := 99 }, none)

/-- A concrete frame body for `update` that throws (exception 5) without
touching the drawer state. -/
def throwBodyEx : Drawer → Drawer × Option ℕ :=
  fun d => (d, some 5)

/-- C3: for every tile position, every rotation angle, and the backend
center fixed between the two calls (the canvas is not modified by either),
`_offsetForRotation` followed by `_restoreRotationChanges` restores
`tile.position` exactly. -/
theorem rotation_roundtrip_restores_position
    (d : Drawer) (t : Tile) (degrees : ℚ) :
    ((d.offsetForRotation t degrees).1.restoreRotationChanges
        (d.offsetForRotation t degrees).2).2.position = t.position := by
  simp [Drawer.offsetForRotation, Drawer.restoreRotationChanges]

/-- C8: reset is idempotent with respect to the cache state: resetting
twice (at any two clock times) leaves `tilesMatrix`, `coverage`,
`tilesLoaded` and `lastDrawn` exactly as resetting once, and
`numTilesLoaded` is 0 immediately after any reset. -/
theorem reset_idempotent_cache (d : Drawer) (t1 t2 : ℕ) :
    ((d.reset t1).reset t2).tilesMatrix = (d.reset t1).tilesMatrix ∧
    ((d.reset t1).reset t2).coverage = (d.reset t1).coverage ∧
    ((d.reset t1).reset t2).tilesLoaded = (d.reset t1).tilesLoaded ∧
    ((d.reset t1).reset t2).lastDrawn = (d.reset t1).lastDrawn ∧
    (d.reset t1).numTilesLoaded = 0 := by
  simp [Drawer.reset, clearTiles, Drawer.numTilesLoaded]

/-- C5: the rotation enter step rewrites `tile.position` to
`position - center` where the center is (canvas.width / 2,
canvas.height / 2), and issues save, translate-to-center and
rotate-by-degrees (i.e. by pi / 180 * degrees radians) on the context;
concretely, with position (10, 10), center (50, 50) and 45 degrees, the
rewritten position is (-40, -40). -/
theorem offsetForRotation_center_shift :
    (∀ (d : Drawer) (t : Tile) (degrees : ℚ),
      (d.offsetForRotation t degrees).2.position =
        ⟨t.position.x - d.canvas.width / 2,
         t.position.y - d.canvas.height / 2⟩ ∧
      (d.offsetForRotation t degrees).1.context.ops =
        d.context.ops ++
          [CtxOp.save,
           CtxOp.translate (d.canvas.width / 2) (d.canvas.height / 2),
           CtxOp.rotateDeg degrees]) ∧
    (drawerEx.offsetForRotation tileEx 45).2.position = ⟨-40, -40⟩ := by
  constructor
  · intro d t degrees
    exact ⟨rfl, rfl⟩
  · show Pt.mk ((10 : ℚ) - 100 / 2) ((10 : ℚ) - 100 / 2) = ⟨-40, -40⟩
    norm_num

/-- C1 (counterexample): with the drawing surface unavailable and the
viewport rotated by 45 degrees, `drawTile` runs the rotation enter step
(the context save is issued and `tile.position` is rewritten), the draw
call throws, and the exit step does NOT run: the save-stack is left one
deeper than before and `tile.position` is not restored — refuting the
claim that exit always runs when enter ran. -/
theorem drawTile_rotation_exit_skipped_on_throw :
    (drawerBadSurface.drawTile tileEx).threw = true ∧
    CtxOp.save ∈ (drawerBadSurface.drawTile tileEx).drawer.context.ops ∧
    drawerBadSurface.context.depth = 0 ∧
    (drawerBadSurface.drawTile tileEx).drawer.context.depth = 1 ∧
    CtxOp.restore ∉ (drawerBadSurface.drawTile tileEx).drawer.context.ops ∧
    (drawerBadSurface.drawTile tileEx).tile.position ≠ tileEx.position := by
  refine ⟨rfl, ?_, rfl, rfl, ?_, ?_⟩
  · show CtxOp.save ∈ [CtxOp.save, CtxOp.translate (100 / 2) (100 / 2),
      CtxOp.rotateDeg 45]
    simp
  · show CtxOp.restore ∉ [CtxOp.save, CtxOp.translate (100 / 2) (100 / 2),
      CtxOp.rotateDeg 45]
    simp
  · show Pt.mk ((10 : ℚ) - 100 / 2) ((10 : ℚ) - 100 / 2) ≠ Pt.mk 10 10
    intro h
    have hx : ((10 : ℚ) - 100 / 2) = 10 := congrArg Pt.x h
    norm_num at hx

/-- C1 (amended): on the canvas backend with nonzero rotation, whenever the
draw call between the rotation enter/exit steps returns normally (here:
the drawing surface is available), the exit step runs: no exception
propagates, a context restore is issued, the save-stack depth is back to
its pre-call value, and `tile.position` is restored exactly. -/
theorem drawTile_rotation_exit_runs_on_success (d : Drawer) (t : Tile)
    (hc : d.useCanvas = true) (hd : d.viewport.degrees ≠ 0)
    (hok : d.context.ok = true) :
    (d.drawTile t).threw = false ∧
    CtxOp.restore ∈ (d.drawTile t).drawer.context.ops ∧
    (d.drawTile t).drawer.context.depth = d.context.depth ∧
    (d.drawTile t).tile.position = t.position := by
  simp [Drawer.drawTile, hc, hd, hok, Tile.drawCanvas,
    Drawer.offsetForRotation, Drawer.restoreRotationChanges,
    Drawer.drawingHandler]

/-- C1 (witness): the amended theorem instantiated at the concrete rotated
drawer with an available surface. -/
theorem drawTile_rotation_exit_runs_on_success_witness :
    drawerEx.useCanvas = true ∧ drawerEx.viewport.degrees ≠ 0 ∧
    drawerEx.context.ok = true ∧
    ((drawerEx.drawTile tileEx).threw = false ∧
     CtxOp.restore ∈ (drawerEx.drawTile tileEx).drawer.context.ops ∧
     (drawerEx.drawTile tileEx).drawer.context.depth =
       drawerEx.context.depth ∧
     (drawerEx.drawTile tileEx).tile.position = tileEx.position) :=
  ⟨rfl, by decide, rfl,
   drawTile_rotation_exit_runs_on_success drawerEx tileEx rfl (by decide) rfl⟩

/-- C2 (counterexample): calling `update()` from inside the frame body of a
running `update()` is not detected: the nested call executes its body
(observable through the `lastResetTime := 99` marker) and the whole call
returns normally with no failure raised, refuting the claim that a nested
call is reported as an assertion-style failure rather than silently
executed. -/
theorem update_nested_call_silently_executes :
    (drawerEx.update (fun x => x.update innerBodyEx)).2 = none ∧
    (drawerEx.update (fun x => x.update innerBodyEx)).1.lastResetTime = 99 ∧
    (drawerEx.update (fun x => x.update innerBodyEx)).1.midUpdate = false :=
  ⟨rfl, rfl, rfl⟩

/-- C2 (amended): `update()` sets `midUpdate` on entry without checking it,
so a nested `update()` call made while one is running is executed silently:
for any inner frame body that returns normally, the nested call runs it and
the outer call returns normally (no failure of any kind is raised), with
`midUpdate` cleared at the end. -/
theorem update_no_reentrancy_detection (d d2 : Drawer)
    (inner : Drawer → Drawer × Option ℕ)
    (h : inner { d with midUpdate := true } = (d2, none)) :
    d.update (fun x => x.update inner) = ({ d2 with midUpdate := false }, none) := by
  have h2 : ({ { d with midUpdate := true } with midUpdate := true } : Drawer)
      = { d with midUpdate := true } := rfl
  simp only [Drawer.update, h2, h]

/-- C2 (witness): the amended theorem instantiated at the concrete drawer
and the marker frame body. -/
theorem update_no_reentrancy_detection_witness :
    innerBodyEx { drawerEx with midUpdate := true }
      = ({ drawerEx with midUpdate := true, lastResetTime := 99 }, none) ∧
    drawerEx.update (fun x => x.update innerBodyEx)
      = ({ { drawerEx with midUpdate := true, lastResetTime := 99 } with
            midUpdate := false }, none) :=
  ⟨rfl,
   update_no_reentrancy_detection drawerEx
     { drawerEx with midUpdate := true, lastResetTime := 99 } innerBodyEx rfl⟩

/-- C4 (counterexample): at a drawer holding one loaded tile, `destroy()`
leaves the cache structures non-empty: `numTilesLoaded()` still returns 1
(not 0) and `tilesMatrix`, `coverage` and `lastDrawn` are not emptied —
refuting the claim that destroy leaves the cache structures empty. -/
theorem destroy_leaves_cache_nonempty :
    drawerEx.destroy.numTilesLoaded = 1 ∧
    drawerEx.destroy.numTilesLoaded ≠ 0 ∧
    drawerEx.destroy.tilesMatrix ≠ [] ∧
    drawerEx.destroy.coverage ≠ [] ∧
    drawerEx.destroy.lastDrawn ≠ [] := by
  refine ⟨rfl, by decide, ?_, ?_, ?_⟩ <;> simp [Drawer.destroy, drawerEx]

/-- C4 (amended): `destroy()` unloads every record in `tilesLoaded` in
place (load state `unloaded`, image handle released) and shrinks the
canvas to 1x1, but it does not empty any of the cache structures:
`tilesMatrix`, `coverage` and `lastDrawn` are untouched and
`numTilesLoaded()` still returns the pre-destroy count. -/
theorem destroy_unloads_but_keeps_cache (d : Drawer) :
    (d.destroy.tilesLoaded.all fun t =>
        (t.loadState == LoadState.unloaded) && (t.loadedImage == none)) = true ∧
    d.destroy.canvas = ⟨1, 1⟩ ∧
    d.destroy.numTilesLoaded = d.numTilesLoaded ∧
    d.destroy.tilesMatrix = d.tilesMatrix ∧
    d.destroy.coverage = d.coverage ∧
    d.destroy.lastDrawn = d.lastDrawn := by
  refine ⟨?_, rfl, ?_, rfl, rfl, rfl⟩
  · have hu : d.destroy.tilesLoaded = d.tilesLoaded.map Tile.unload := rfl
    rw [hu, List.all_eq_true]
    intro t ht
    rcases List.mem_map.1 ht with ⟨s, _, rfl⟩
    rfl
  · simp [Drawer.destroy, Drawer.numTilesLoaded]

/-- C6: on the canvas backend, `clear()` reassigns the canvas dimensions
only when the container size reported by the viewport differs from the
current dimensions (when they match, the canvas is left untouched and no
resize effect is produced), and in every case issues a clearRect over the
full container rectangle. -/
theorem clear_resizes_only_on_mismatch (d : Drawer) (h : d.useCanvas = true) :
    ((d.canvas.width = d.viewport.containerSize.x ∧
      d.canvas.height = d.viewport.containerSize.y) →
        (d.clear.1.canvas = d.canvas ∧
         d.clear.2 = [Effect.innerHTMLCleared])) ∧
    (¬(d.canvas.width = d.viewport.containerSize.x ∧
       d.canvas.height = d.viewport.containerSize.y) →
        (d.clear.1.canvas =
            ⟨d.viewport.containerSize.x, d.viewport.containerSize.y⟩ ∧
         d.clear.2 = [Effect.innerHTMLCleared,
           Effect.canvasResize d.viewport.containerSize.x
             d.viewport.containerSize.y])) ∧
    d.clear.1.context.ops = d.context.ops ++
      [CtxOp.clearRect 0 0 d.viewport.containerSize.x
        d.viewport.containerSize.y] := by
  by_cases hm : d.canvas.width = d.viewport.containerSize.x ∧
      d.canvas.height = d.viewport.containerSize.y
  · have hr : ¬(d.canvas.width ≠ d.viewport.containerSize.x ∨
        d.canvas.height ≠ d.viewport.containerSize.y) := by
      rintro (h1 | h1)
      · exact h1 hm.1
      · exact h1 hm.2
    simp [Drawer.clear, h, hr, hm]
  · have hr : d.canvas.width ≠ d.viewport.containerSize.x ∨
        d.canvas.height ≠ d.viewport.containerSize.y := not_and_or.1 hm
    simp [Drawer.clear, h, hr, hm]

/-- C6 (witness): the theorem instantiated at the concrete canvas drawer,
whose canvas dimensions already match the container size. -/
theorem clear_resizes_only_on_mismatch_witness :
    drawerEx.useCanvas = true ∧
    (((drawerEx.canvas.width = drawerEx.viewport.containerSize.x ∧
       drawerEx.canvas.height = drawerEx.viewport.containerSize.y) →
        (drawerEx.clear.1.canvas = drawerEx.canvas ∧
         drawerEx.clear.2 = [Effect.innerHTMLCleared])) ∧
     (¬(drawerEx.canvas.width = drawerEx.viewport.containerSize.x ∧
        drawerEx.canvas.height = drawerEx.viewport.containerSize.y) →
        (drawerEx.clear.1.canvas =
            ⟨drawerEx.viewport.containerSize.x,
             drawerEx.viewport.containerSize.y⟩ ∧
         drawerEx.clear.2 = [Effect.innerHTMLCleared,
           Effect.canvasResize drawerEx.viewport.containerSize.x
             drawerEx.viewport.containerSize.y])) ∧
     drawerEx.clear.1.context.ops = drawerEx.context.ops ++
       [CtxOp.clearRect 0 0 drawerEx.viewport.containerSize.x
         drawerEx.viewport.containerSize.y]) :=
  ⟨rfl, clear_resizes_only_on_mismatch drawerEx rfl⟩

/-- C7: the pre-composite draw hook is invoked on every draw made through
the canvas backend (with the drawing surface available, rotated or not),
and never on the DOM-node backend. -/
theorem drawTile_hook_iff_canvas (d : Drawer) (t : Tile) :
    (d.useCanvas = true → d.context.ok = true →
        Effect.hookInvoked ∈ (d.drawTile t).effects) ∧
    (d.useCanvas = false →
        Effect.hookInvoked ∉ (d.drawTile t).effects) := by
  constructor
  · intro hc hok
    by_cases hd : d.viewport.degrees = 0
    · simp [Drawer.drawTile, hc, hd, Tile.drawCanvas, hok,
        Drawer.drawingHandler]
    · simp [Drawer.drawTile, hc, hd, Tile.drawCanvas, hok,
        Drawer.offsetForRotation, Drawer.drawingHandler]
  · intro hc
    simp [Drawer.drawTile, hc, Tile.drawHTML]

/-- C7 (witness): the theorem instantiated at the concrete canvas drawer
(hook invoked) and at the DOM-node drawer (hook not invoked). -/
theorem drawTile_hook_iff_canvas_witness :
    drawerEx.useCanvas = true ∧ drawerEx.context.ok = true ∧
    Effect.hookInvoked ∈ (drawerEx.drawTile tileEx).effects ∧
    drawerNode.useCanvas = false ∧
    Effect.hookInvoked ∉ (drawerNode.drawTile tileEx).effects :=
  ⟨rfl, rfl, (drawTile_hook_iff_canvas drawerEx tileEx).1 rfl rfl,
   rfl, (drawTile_hook_iff_canvas drawerNode tileEx).2 rfl⟩

/-- C9: for any frame body that leaves the guard set (as the real frame
body does, since only `update` itself writes `midUpdate`), if the body
throws then `update()` leaves `midUpdate` stuck at true (the guard is not
restored on the error path), while if the body returns normally then
`midUpdate` is false afterwards. -/
theorem update_guard_after_throw_and_return (d : Drawer)
    (body : Drawer → Drawer × Option ℕ)
    (hpres : (body { d with midUpdate := true }).1.midUpdate = true) :
    ((body { d with midUpdate := true }).2.isSome = true →
       (d.update body).1.midUpdate = true) ∧
    ((body { d with midUpdate := true }).2 = none →
       (d.update body).1.midUpdate = false) := by
  constructor
  · intro hsome
    rcases hb : body { d with midUpdate := true } with ⟨d2, e⟩
    rw [hb] at hpres hsome
    cases e with
    | none => simp at hsome
    | some v => simpa [Drawer.update, hb] using hpres
  · intro hnone
    rcases hb : body { d with midUpdate := true } with ⟨d2, e⟩
    rw [hb] at hnone
    cases e with
    | none => simp [Drawer.update, hb]
    | some v => simp at hnone

/-- C9 (witness): the theorem instantiated at the concrete drawer with the
throwing frame body (which preserves the guard). -/
theorem update_guard_after_throw_and_return_witness :
    (throwBodyEx { drawerEx with midUpdate := true }).1.midUpdate = true ∧
    (((throwBodyEx { drawerEx with midUpdate := true }).2.isSome = true →
        (drawerEx.update throwBodyEx).1.midUpdate = true) ∧
     ((throwBodyEx { drawerEx with midUpdate := true }).2 = none →
        (drawerEx.update throwBodyEx).1.midUpdate = false)) :=
  ⟨rfl, update_guard_after_throw_and_return drawerEx throwBodyEx rfl⟩

/-- C10: a `drawTile` call that does not take the rotation path — on the
DOM-node backend, or on the canvas backend with `viewport.degrees = 0` —
leaves `tile.position` and `tile.size` unchanged. -/
theorem drawTile_no_rotation_preserves_tile (d : Drawer) (t : Tile)
    (h : d.useCanvas = false ∨ d.viewport.degrees = 0) :
    (d.drawTile t).tile.position = t.position ∧
    (d.drawTile t).tile.size = t.size := by
  rcases h with h | h
  · simp [Drawer.drawTile, h]
  · by_cases hc : d.useCanvas
    · by_cases hok : d.context.ok
      · simp [Drawer.drawTile, hc, h, Tile.drawCanvas, hok]
      · simp [Drawer.drawTile, hc, h, Tile.drawCanvas, hok]
    · simp [Drawer.drawTile, hc]

/-- C10 (witness): the theorem instantiated at the unrotated canvas
drawer. -/
theorem drawTile_no_rotation_preserves_tile_witness :
    (drawerNoRot.useCanvas = false ∨ drawerNoRot.viewport.degrees = 0) ∧
    ((drawerNoRot.drawTile tileEx).tile.position = tileEx.position ∧
     (drawerNoRot.drawTile tileEx).tile.size = tileEx.size) :=
  ⟨Or.inr rfl,
   drawTile_no_rotation_preserves_tile drawerNoRot tileEx (Or.inr rfl)⟩
